import Mathlib

/-!
Verification development for the Churn Predictor service.

The service (FastAPI application in main.py) validates a ten-field customer
record, gates prediction behind bearer-token authentication, and maps the
binary output of a pre-trained classifier to a human-facing result.  The
definitions below shallowly embed the data model and the operations of the
source: pydantic field validators become pure Lean functions, the request
pipeline becomes an explicit function from token and body to a response, and
the opaque model artifact becomes a function parameter.  The authentication
module (auth.py) is not part of the source tree; its operations are modelled
from the specification and marked as such in their doc comments.
-/

namespace ChurnPredictor

/-- Characters removed by the Python method str.strip when called without
arguments (ASCII whitespace). -/
def isPyWhitespace (c : Char) : Bool :=
  c = ' ' || c = '\t' || c = '\n' || c = '\r' || c = '\x0b' || c = '\x0c'

/-- Embedding of the Python method str.strip: drop leading and trailing
whitespace. -/
def pyStrip (s : String) : String :=
  ⟨(((s.data.dropWhile isPyWhitespace).reverse.dropWhile isPyWhitespace).reverse)⟩

/-- One step of the Python method str.title: a letter is uppercased when the
previous character is not a letter and lowercased otherwise. -/
def titleChar (prevAlpha : Bool) (c : Char) : Char :=
  if c.isAlpha then (if prevAlpha then c.toLower else c.toUpper) else c

/-- Recursion for pyTitle over the character list, tracking whether the
previous character was a letter. -/
def pyTitleAux : Bool → List Char → List Char
  | _, [] => []
  | prev, c :: cs => titleChar prev c :: pyTitleAux (c.isAlpha) cs

/-- Embedding of the Python method str.title restricted to ASCII strings. -/
def pyTitle (s : String) : String :=
  ⟨pyTitleAux false s.data⟩

/-- Validation errors of the input validator.  The enum error carries the
allowed set and the offending raw value, as the source messages do. -/
inductive ValidationError where
  | invalidEnum (field : String) (allowed : List String) (got : String)
  | outOfRange (field : String)
  | missingField (field : String)
  | wrongType (field : String)
  deriving DecidableEq, Repr

/-- Allowed gender values, from the validator in main.py. -/
def genderAllowed : List String := ["Male", "Female"]

/-- Allowed subscription values, from the validator in main.py. -/
def subscriptionAllowed : List String := ["Standard", "Basic", "Premium"]

/-- Allowed contract values, from the validator in main.py. -/
def contractAllowed : List String := ["Annual", "Monthly", "Quarterly"]

/-- Embedding of the validator validate_gender: strip, title-case, then check
membership in the allowed set. -/
def validate_gender (value : String) : Except ValidationError String :=
  let cleaned := pyTitle (pyStrip value)
  if cleaned ∈ genderAllowed then Except.ok cleaned
  else Except.error (ValidationError.invalidEnum "gender" genderAllowed value)

/-- Embedding of the validator validate_subscription. -/
def validate_subscription (value : String) : Except ValidationError String :=
  let cleaned := pyTitle (pyStrip value)
  if cleaned ∈ subscriptionAllowed then Except.ok cleaned
  else Except.error
    (ValidationError.invalidEnum "subscription_type" subscriptionAllowed value)

/-- Embedding of the validator validate_contract. -/
def validate_contract (value : String) : Except ValidationError String :=
  let cleaned := pyTitle (pyStrip value)
  if cleaned ∈ contractAllowed then Except.ok cleaned
  else Except.error
    (ValidationError.invalidEnum "contract_length" contractAllowed value)

/-- A JSON value of the request body, restricted to the shapes the schema
uses: numbers and strings. -/
inductive JValue where
  | num (q : ℚ)
  | str (s : String)
  deriving DecidableEq, Repr

/-- A request body: an association list of JSON keys to values. -/
abbrev Body := List (String × JValue)

/-- The validated customer record of the schema CustomerData in main.py:
ten fields, numeric ones as rationals (age integral), categorical ones as
normalized strings. -/
structure CustomerData where
  age : Int
  gender : String
  tenure : ℚ
  usage_frequency : ℚ
  support_calls : ℚ
  payment_delay : ℚ
  subscription_type : String
  contract_length : String
  total_spend : ℚ
  last_interaction : ℚ
  deriving DecidableEq, Repr

/-- First value bound to a key in the body. -/
def lookupKey (body : Body) (k : String) : Option JValue :=
  (body.find? (fun p => p.fst = k)).map Prod.snd

/-- Field lookup under ConfigDict with populate_by_name set to True: the
alias is consulted first, and the internal field name is also accepted. -/
def fieldLookup (body : Body) (al nm : String) : Option JValue :=
  match lookupKey body al with
  | some v => some v
  | none => lookupKey body nm

/-- Parse a mandatory rational field of the body. -/
def getNum (body : Body) (al nm : String) : Except ValidationError ℚ :=
  match fieldLookup body al nm with
  | none => Except.error (ValidationError.missingField nm)
  | some (JValue.num q) => Except.ok q
  | some (JValue.str _) => Except.error (ValidationError.wrongType nm)

/-- Parse a mandatory integer field of the body: a number with an integral
value. -/
def getInt (body : Body) (al nm : String) : Except ValidationError Int :=
  match fieldLookup body al nm with
  | none => Except.error (ValidationError.missingField nm)
  | some (JValue.num q) =>
      if q.den = 1 then Except.ok q.num
      else Except.error (ValidationError.wrongType nm)
  | some (JValue.str _) => Except.error (ValidationError.wrongType nm)

/-- Parse a mandatory string field of the body. -/
def getStr (body : Body) (al nm : String) : Except ValidationError String :=
  match fieldLookup body al nm with
  | none => Except.error (ValidationError.missingField nm)
  | some (JValue.str s) => Except.ok s
  | some (JValue.num _) => Except.error (ValidationError.wrongType nm)

/-- The closed-interval constraint ge and le of a rational Field declaration
in main.py. -/
def checkRange (nm : String) (lo hi q : ℚ) : Except ValidationError ℚ :=
  if lo ≤ q ∧ q ≤ hi then Except.ok q
  else Except.error (ValidationError.outOfRange nm)

/-- The closed-interval constraint ge and le of the integer Field age. -/
def checkIntRange (nm : String) (lo hi : Int) (x : Int) :
    Except ValidationError Int :=
  if lo ≤ x ∧ x ≤ hi then Except.ok x
  else Except.error (ValidationError.outOfRange nm)

/-- Embedding of pydantic validation of a request body against the schema
CustomerData in main.py: each field is located by alias or internal name,
type-checked, then checked against its Field bounds or its field_validator,
in declaration order. -/
def validateBody (body : Body) : Except ValidationError CustomerData := do
  let age0 ← getInt body "Age" "age"
  let age ← checkIntRange "age" 3 110 age0
  let gender0 ← getStr body "Gender" "gender"
  let gender ← validate_gender gender0
  let tenure0 ← getNum body "Tenure" "tenure"
  let tenure ← checkRange "tenure" 1 60 tenure0
  let usage0 ← getNum body "Usage Frequency" "usage_frequency"
  let usage ← checkRange "usage_frequency" 1 30 usage0
  let calls0 ← getNum body "Support Calls" "support_calls"
  let calls ← checkRange "support_calls" 0 10 calls0
  let delay0 ← getNum body "Payment Delay" "payment_delay"
  let delay ← checkRange "payment_delay" 0 30 delay0
  let sub0 ← getStr body "Subscription Type" "subscription_type"
  let sub ← validate_subscription sub0
  let con0 ← getStr body "Contract Length" "contract_length"
  let con ← validate_contract con0
  let spend0 ← getNum body "Total Spend" "total_spend"
  let spend ← checkRange "total_spend" 100 1000 spend0
  let last0 ← getNum body "Last Interaction" "last_interaction"
  let last ← checkRange "last_interaction" 1 30 last0
  pure ⟨age, gender, tenure, usage, calls, delay, sub, con, spend, last⟩

/-- A body keyed entirely by the external aliases of the schema. -/
def mkBodyAlias (a : Int) (g : String) (t uf sc pd : ℚ) (st cl : String)
    (ts li : ℚ) : Body :=
  [("Age", JValue.num a), ("Gender", JValue.str g), ("Tenure", JValue.num t),
   ("Usage Frequency", JValue.num uf), ("Support Calls", JValue.num sc),
   ("Payment Delay", JValue.num pd), ("Subscription Type", JValue.str st),
   ("Contract Length", JValue.str cl), ("Total Spend", JValue.num ts),
   ("Last Interaction", JValue.num li)]

/-- A body keyed entirely by the internal underscore field names of the
schema. -/
def mkBodyInternal (a : Int) (g : String) (t uf sc pd : ℚ) (st cl : String)
    (ts li : ℚ) : Body :=
  [("age", JValue.num a), ("gender", JValue.str g), ("tenure", JValue.num t),
   ("usage_frequency", JValue.num uf), ("support_calls", JValue.num sc),
   ("payment_delay", JValue.num pd), ("subscription_type", JValue.str st),
   ("contract_length", JValue.str cl), ("total_spend", JValue.num ts),
   ("last_interaction", JValue.num li)]

/-- The response schema Result in main.py: two string fields. -/
structure Result where
  prediction : String
  risk_level : String
  deriving DecidableEq, Repr

/-- The result construction inside predict in main.py: prediction is Churn
when the model output equals 1 and No Churn otherwise, and risk_level is
Critical when the output equals 1 and Safe otherwise. -/
def mapPrediction (p : Int) : Result :=
  ⟨if p = 1 then "Churn" else "No Churn",
   if p = 1 then "Critical" else "Safe"⟩

/-- The try block of predict in main.py.  Building the single-row frame and
invoking the classifier are together embedded as one fallible step, the
parameter infer, since the model artifact is an opaque black box; an
exception is an error value carrying the message. -/
def predictCore (infer : CustomerData → Except String Int)
    (data : CustomerData) : Except String Result :=
  match infer data with
  | Except.error e => Except.error e
  | Except.ok p => Except.ok (mapPrediction p)

/-- Modelled from the spec: the token TTL constant
ACCESS_TOKEN_EXPIRE_MINUTES lives in auth.py, which is not in the source
tree; the spec calls it a fixed configured constant of e.g. 30 minutes. -/
def ACCESS_TOKEN_EXPIRE_MINUTES : Nat := 30

/-- Modelled from the spec: a signed token of the Token Service (auth.py is
not in the source tree) embedding an optional subject, an expiry timestamp
in seconds, and the signing key it was signed with. -/
structure Token where
  subject : Option String
  expiry : Nat
  sig : Nat
  deriving DecidableEq, Repr

/-- Token verification error taxonomy of the Token Service. -/
inductive TokenError where
  | expired
  | malformed
  | missingSubject
  deriving DecidableEq, Repr

/-- Modelled from the spec: create_access_token in auth.py signs a token for
the subject with expiry now plus the fixed TTL. -/
def create_access_token (key now : Nat) (sub : String) : Token :=
  ⟨some sub, now + ACCESS_TOKEN_EXPIRE_MINUTES * 60, key⟩

/-- Modelled from the spec: verify_token in auth.py fails with Malformed
when the signature does not validate, with Expired when the current time
exceeds the embedded expiry, and with MissingSubject when the payload lacks
an identity claim; otherwise it returns the subject. -/
def verify_token (key now : Nat) (tok : Token) : Except TokenError String :=
  if tok.sig ≠ key then Except.error TokenError.malformed
  else if tok.expiry < now then Except.error TokenError.expired
  else match tok.subject with
    | none => Except.error TokenError.missingSubject
    | some s => Except.ok s

/-- A stored user record of the Credential Store: username and salted hash. -/
structure UserRecord where
  username : String
  password_hash : String
  deriving DecidableEq, Repr

/-- The Credential Store state: the list of user records. -/
abbrev Store := List UserRecord

/-- Registration error of the Credential Store. -/
inductive RegisterError where
  | alreadyExists
  deriving DecidableEq, Repr

/-- The request schema UserAuth of the register and login endpoints. -/
structure UserAuth where
  username : String
  password : String
  deriving DecidableEq, Repr

/-- Modelled from the spec: register_new_user in auth.py fails with
AlreadyExists when the username is already present under case-sensitive
exact match, and otherwise appends one record holding the salted one-way
hash of the password.  The hash function is an opaque parameter. -/
def register_new_user (hash : String → String) (store : Store)
    (user : UserAuth) : Except RegisterError Store :=
  if store.any (fun r => r.username = user.username) then
    Except.error RegisterError.alreadyExists
  else
    Except.ok (store ++ [⟨user.username, hash user.password⟩])

/-- The response schema TokenResponse of the auth endpoints. -/
structure TokenResponse where
  access_token : Token
  token_type : String
  expires_in : Nat
  deriving DecidableEq, Repr

/-- Embedding of the register endpoint in main.py: register the user, then
auto-issue a token for the username with the fixed TTL and answer with
token_type Bearer and expires_in in seconds. -/
def registerEndpoint (hash : String → String) (key now : Nat) (store : Store)
    (user : UserAuth) : Except RegisterError (Store × TokenResponse) :=
  match register_new_user hash store user with
  | Except.error e => Except.error e
  | Except.ok s2 =>
      Except.ok (s2, ⟨create_access_token key now user.username, "Bearer",
        ACCESS_TOKEN_EXPIRE_MINUTES * 60⟩)

/-- HTTP outcome of a predict request, tagged with the data each outcome
carries: 200 with a Result, 401 on auth failure, 422 on body validation
failure, 500 with the underlying message on inference failure. -/
inductive Response where
  | ok (r : Result)
  | authFailure
  | validationFailure (e : ValidationError)
  | serverError (detail : String)
  deriving DecidableEq, Repr

/-- HTTP status code of a response. -/
def Response.status : Response → Nat
  | Response.ok _ => 200
  | Response.authFailure => 401
  | Response.validationFailure _ => 422
  | Response.serverError _ => 500

/-- The predict request pipeline.  Token verification comes from the route
dependency in main.py and runs first; a missing or unverifiable token is
rejected with 401.  Body validation against CustomerData runs next.
Modelled from the spec: the dispatch statuses are framework behavior not in
the source tree, with auth errors mapped to 401 and validation errors to
the 422 class; the 500 with the underlying message comes from the except
clause of predict in main.py. -/
def handlePredict (key now : Nat) (infer : CustomerData → Except String Int)
    (tok : Option Token) (body : Body) : Response :=
  match tok with
  | none => Response.authFailure
  | some t =>
    match verify_token key now t with
    | Except.error _ => Response.authFailure
    | Except.ok _ =>
      match validateBody body with
      | Except.error e => Response.validationFailure e
      | Except.ok record =>
        match predictCore infer record with
        | Except.error msg => Response.serverError msg
        | Except.ok r => Response.ok r

/-- Whether a request body passes validation. -/
def accepts (body : Body) : Bool :=
  match validateBody body with
  | Except.ok _ => true
  | Except.error _ => false

/-- A sample validated record, the example values of the schema. -/
def sampleData : CustomerData :=
  ⟨20, "Male", 30, 15, 5, 15, "Premium", "Monthly", 550, 15⟩

/-- C1: for every validated CustomerRecord, predict maps the output code 1
of the model to the result pairing the churn label with the Critical risk
level, and the output code 0 to the no-churn label with the Safe risk
level; the label always lies in the two-valued set. -/
theorem C1_output_code_mapping
    (infer : CustomerData → Except String Int) (data : CustomerData) :
    (infer data = Except.ok 1 →
      predictCore infer data = Except.ok ⟨"Churn", "Critical"⟩) ∧
    (infer data = Except.ok 0 →
      predictCore infer data = Except.ok ⟨"No Churn", "Safe"⟩) ∧
    (∀ p r, infer data = Except.ok p → predictCore infer data = Except.ok r →
      r.prediction = "Churn" ∨ r.prediction = "No Churn") := by
  refine ⟨fun h => ?_, fun h => ?_, fun p r hp hr => ?_⟩
  · simp [predictCore, h, mapPrediction]
  · simp [predictCore, h, mapPrediction]
  · have hr2 : r = mapPrediction p := by
      unfold predictCore at hr
      rw [hp] at hr
      exact ((Except.ok.injEq _ _).mp hr).symm
    by_cases hp1 : p = 1 <;> rw [hr2] <;> simp [mapPrediction, hp1]

/-- Witness for C1 at a concrete model and record. -/
theorem C1_output_code_mapping_witness :
    predictCore (fun _ => Except.ok 1) sampleData =
      Except.ok ⟨"Churn", "Critical"⟩ ∧
    predictCore (fun _ => Except.ok 0) sampleData =
      Except.ok ⟨"No Churn", "Safe"⟩ :=
  ⟨(C1_output_code_mapping (fun _ => Except.ok 1) sampleData).1 rfl,
   (C1_output_code_mapping (fun _ => Except.ok 0) sampleData).2.1 rfl⟩

/-- C10: for every value the model may return, the prediction label is
Churn exactly when the output equals 1 and No Churn otherwise, and the
risk level is Critical exactly when the label is Churn and Safe otherwise,
so the two fields are always mutually consistent and every output other
than 1 is the no-churn safe outcome. -/
theorem C10_nonbinary_output_consistency (p : Int) :
    ((mapPrediction p).prediction = "Churn" ↔ p = 1) ∧
    ((mapPrediction p).prediction = "No Churn" ↔ ¬ p = 1) ∧
    ((mapPrediction p).risk_level = "Critical" ↔
      (mapPrediction p).prediction = "Churn") ∧
    ((mapPrediction p).risk_level = "Safe" ↔
      (mapPrediction p).prediction = "No Churn") := by
  by_cases hp : p = 1 <;> simp [mapPrediction, hp]

/-- C3: each enum validator first trims surrounding whitespace and
title-cases the raw value, then checks membership in its fixed allowed set;
a rejection carries the list of permitted values, the input " male "
validates exactly like "Male", and "Other" is rejected. -/
theorem C3_enum_normalization :
    (validate_gender " male " = Except.ok "Male" ∧
      validate_gender " male " = validate_gender "Male") ∧
    validate_gender "Other" =
      Except.error (ValidationError.invalidEnum "gender" genderAllowed "Other") ∧
    (∀ v c, validate_gender v = Except.ok c →
      c = pyTitle (pyStrip v) ∧ c ∈ genderAllowed) ∧
    (∀ v, pyTitle (pyStrip v) ∉ genderAllowed →
      validate_gender v =
        Except.error (ValidationError.invalidEnum "gender" genderAllowed v)) ∧
    (∀ v c, validate_subscription v = Except.ok c →
      c = pyTitle (pyStrip v) ∧ c ∈ subscriptionAllowed) ∧
    (∀ v, pyTitle (pyStrip v) ∉ subscriptionAllowed →
      validate_subscription v = Except.error
        (ValidationError.invalidEnum "subscription_type" subscriptionAllowed v)) ∧
    (∀ v c, validate_contract v = Except.ok c →
      c = pyTitle (pyStrip v) ∧ c ∈ contractAllowed) ∧
    (∀ v, pyTitle (pyStrip v) ∉ contractAllowed →
      validate_contract v = Except.error
        (ValidationError.invalidEnum "contract_length" contractAllowed v)) := by
  refine ⟨⟨rfl, rfl⟩, rfl, ?_, ?_, ?_, ?_, ?_, ?_⟩ <;> intro v
  · intro c h
    by_cases hm : pyTitle (pyStrip v) ∈ genderAllowed
    · simp [validate_gender, hm] at h
      exact ⟨h.symm, h ▸ hm⟩
    · simp [validate_gender, hm] at h
  · intro h
    simp [validate_gender, h]
  · intro c h
    by_cases hm : pyTitle (pyStrip v) ∈ subscriptionAllowed
    · simp [validate_subscription, hm] at h
      exact ⟨h.symm, h ▸ hm⟩
    · simp [validate_subscription, hm] at h
  · intro h
    simp [validate_subscription, h]
  · intro c h
    by_cases hm : pyTitle (pyStrip v) ∈ contractAllowed
    · simp [validate_contract, hm] at h
      exact ⟨h.symm, h ▸ hm⟩
    · simp [validate_contract, hm] at h
  · intro h
    simp [validate_contract, h]

/-- Witness for C3 at concrete inputs. -/
theorem C3_enum_normalization_witness :
    ("Male" = pyTitle (pyStrip " male ") ∧ "Male" ∈ genderAllowed) ∧
    validate_contract "weekly" = Except.error
      (ValidationError.invalidEnum "contract_length" contractAllowed "weekly") :=
  ⟨C3_enum_normalization.2.2.1 " male " "Male" rfl,
   C3_enum_normalization.2.2.2.2.2.2.2 "weekly" (by decide)⟩

/-- A body carrying the internal underscore key usage_frequency in place of
the external alias Usage Frequency, the other nine keys external. -/
def underscoreUsageBody : Body :=
  [("Age", JValue.num 20), ("Gender", JValue.str "Male"),
   ("Tenure", JValue.num 30), ("usage_frequency", JValue.num 15),
   ("Support Calls", JValue.num 5), ("Payment Delay", JValue.num 15),
   ("Subscription Type", JValue.str "Premium"),
   ("Contract Length", JValue.str "Monthly"), ("Total Spend", JValue.num 550),
   ("Last Interaction", JValue.num 15)]

/-- C2 fails on the code: with populate_by_name set to True, a body naming
usage_frequency by its internal underscore key, without the external alias
Usage Frequency, is accepted, against the claim that only the ten literal
external names are accepted. -/
theorem C2_counterexample_underscore_key_accepted :
    validateBody underscoreUsageBody = Except.ok sampleData ∧
    underscoreUsageBody.all (fun p => p.fst ≠ "Usage Frequency") = true :=
  ⟨rfl, rfl⟩

/-- C2 amended: each field of the body may be named by its external alias
or equally by its internal underscore field name; any alias-keyed body that
validates is validated to the same record when every key is replaced by the
internal field name. -/
theorem C2_amended_alias_or_internal_name
    (a : Int) (g : String) (t uf sc pd : ℚ) (st cl : String) (ts li : ℚ)
    (r : CustomerData)
    (h : validateBody (mkBodyAlias a g t uf sc pd st cl ts li) = Except.ok r) :
    validateBody (mkBodyInternal a g t uf sc pd st cl ts li) = Except.ok r := by
  have he : validateBody (mkBodyAlias a g t uf sc pd st cl ts li) =
      validateBody (mkBodyInternal a g t uf sc pd st cl ts li) := rfl
  rw [← he]
  exact h

/-- Witness for the amended C2 at a concrete body. -/
theorem C2_amended_alias_or_internal_name_witness :
    validateBody (mkBodyInternal 20 "Male" 30 15 5 15 "Premium" "Monthly" 550 15) =
      Except.ok sampleData :=
  C2_amended_alias_or_internal_name 20 "Male" 30 15 5 15 "Premium" "Monthly"
    550 15 sampleData rfl

/-- C4: every numeric field is checked against its documented closed
interval with inclusive bounds.  Varying one field at a time over an
otherwise valid body, validation succeeds exactly on the interval and fails
with the out-of-range error for that field otherwise; age 2 is rejected
while ages 3 and 110 are accepted. -/
theorem C4_numeric_ranges_inclusive :
    (∀ a : Int,
      validateBody (mkBodyAlias a "Male" 30 15 5 15 "Premium" "Monthly" 550 15) =
        if 3 ≤ a ∧ a ≤ 110 then
          Except.ok ⟨a, "Male", 30, 15, 5, 15, "Premium", "Monthly", 550, 15⟩
        else Except.error (ValidationError.outOfRange "age")) ∧
    (∀ t : ℚ,
      validateBody (mkBodyAlias 20 "Male" t 15 5 15 "Premium" "Monthly" 550 15) =
        if 1 ≤ t ∧ t ≤ 60 then
          Except.ok ⟨20, "Male", t, 15, 5, 15, "Premium", "Monthly", 550, 15⟩
        else Except.error (ValidationError.outOfRange "tenure")) ∧
    (∀ uf : ℚ,
      validateBody (mkBodyAlias 20 "Male" 30 uf 5 15 "Premium" "Monthly" 550 15) =
        if 1 ≤ uf ∧ uf ≤ 30 then
          Except.ok ⟨20, "Male", 30, uf, 5, 15, "Premium", "Monthly", 550, 15⟩
        else Except.error (ValidationError.outOfRange "usage_frequency")) ∧
    (∀ sc : ℚ,
      validateBody (mkBodyAlias 20 "Male" 30 15 sc 15 "Premium" "Monthly" 550 15) =
        if 0 ≤ sc ∧ sc ≤ 10 then
          Except.ok ⟨20, "Male", 30, 15, sc, 15, "Premium", "Monthly", 550, 15⟩
        else Except.error (ValidationError.outOfRange "support_calls")) ∧
    (∀ pd : ℚ,
      validateBody (mkBodyAlias 20 "Male" 30 15 5 pd "Premium" "Monthly" 550 15) =
        if 0 ≤ pd ∧ pd ≤ 30 then
          Except.ok ⟨20, "Male", 30, 15, 5, pd, "Premium", "Monthly", 550, 15⟩
        else Except.error (ValidationError.outOfRange "payment_delay")) ∧
    (∀ ts : ℚ,
      validateBody (mkBodyAlias 20 "Male" 30 15 5 15 "Premium" "Monthly" ts 15) =
        if 100 ≤ ts ∧ ts ≤ 1000 then
          Except.ok ⟨20, "Male", 30, 15, 5, 15, "Premium", "Monthly", ts, 15⟩
        else Except.error (ValidationError.outOfRange "total_spend")) ∧
    (∀ li : ℚ,
      validateBody (mkBodyAlias 20 "Male" 30 15 5 15 "Premium" "Monthly" 550 li) =
        if 1 ≤ li ∧ li ≤ 30 then
          Except.ok ⟨20, "Male", 30, 15, 5, 15, "Premium", "Monthly", 550, li⟩
        else Except.error (ValidationError.outOfRange "last_interaction")) ∧
    validateBody (mkBodyAlias 2 "Male" 30 15 5 15 "Premium" "Monthly" 550 15) =
      Except.error (ValidationError.outOfRange "age") ∧
    accepts (mkBodyAlias 3 "Male" 30 15 5 15 "Premium" "Monthly" 550 15) = true ∧
    accepts (mkBodyAlias 110 "Male" 30 15 5 15 "Premium" "Monthly" 550 15) = true := by
  refine ⟨?_, ?_, ?_, ?_, ?_, ?_, ?_, rfl, rfl, rfl⟩
  · intro a
    have hd : validateBody
        (mkBodyAlias a "Male" 30 15 5 15 "Premium" "Monthly" 550 15) =
        (checkIntRange "age" 3 110 a).bind (fun x =>
          Except.ok ⟨x, "Male", 30, 15, 5, 15, "Premium", "Monthly", 550, 15⟩) := rfl
    rw [hd]
    by_cases h : 3 ≤ a ∧ a ≤ 110 <;> simp [checkIntRange, h, Except.bind]
  · intro t
    have hd : validateBody
        (mkBodyAlias 20 "Male" t 15 5 15 "Premium" "Monthly" 550 15) =
        (checkRange "tenure" 1 60 t).bind (fun x =>
          Except.ok ⟨20, "Male", x, 15, 5, 15, "Premium", "Monthly", 550, 15⟩) := rfl
    rw [hd]
    by_cases h : 1 ≤ t ∧ t ≤ 60 <;> simp [checkRange, h, Except.bind]
  · intro uf
    have hd : validateBody
        (mkBodyAlias 20 "Male" 30 uf 5 15 "Premium" "Monthly" 550 15) =
        (checkRange "usage_frequency" 1 30 uf).bind (fun x =>
          Except.ok ⟨20, "Male", 30, x, 5, 15, "Premium", "Monthly", 550, 15⟩) := rfl
    rw [hd]
    by_cases h : 1 ≤ uf ∧ uf ≤ 30 <;> simp [checkRange, h, Except.bind]
  · intro sc
    have hd : validateBody
        (mkBodyAlias 20 "Male" 30 15 sc 15 "Premium" "Monthly" 550 15) =
        (checkRange "support_calls" 0 10 sc).bind (fun x =>
          Except.ok ⟨20, "Male", 30, 15, x, 15, "Premium", "Monthly", 550, 15⟩) := rfl
    rw [hd]
    by_cases h : 0 ≤ sc ∧ sc ≤ 10 <;> simp [checkRange, h, Except.bind]
  · intro pd
    have hd : validateBody
        (mkBodyAlias 20 "Male" 30 15 5 pd "Premium" "Monthly" 550 15) =
        (checkRange "payment_delay" 0 30 pd).bind (fun x =>
          Except.ok ⟨20, "Male", 30, 15, 5, x, "Premium", "Monthly", 550, 15⟩) := rfl
    rw [hd]
    by_cases h : 0 ≤ pd ∧ pd ≤ 30 <;> simp [checkRange, h, Except.bind]
  · intro ts
    have hd : validateBody
        (mkBodyAlias 20 "Male" 30 15 5 15 "Premium" "Monthly" ts 15) =
        (checkRange "total_spend" 100 1000 ts).bind (fun x =>
          Except.ok ⟨20, "Male", 30, 15, 5, 15, "Premium", "Monthly", x, 15⟩) := rfl
    rw [hd]
    by_cases h : 100 ≤ ts ∧ ts ≤ 1000 <;> simp [checkRange, h, Except.bind]
  · intro li
    have hd : validateBody
        (mkBodyAlias 20 "Male" 30 15 5 15 "Premium" "Monthly" 550 li) =
        (checkRange "last_interaction" 1 30 li).bind (fun x =>
          Except.ok ⟨20, "Male", 30, 15, 5, 15, "Premium", "Monthly", 550, x⟩) := rfl
    rw [hd]
    by_cases h : 1 ≤ li ∧ li ≤ 30 <;> simp [checkRange, h, Except.bind]

/-- C5 fails on the code: a predict request with a valid token whose body
fails validation is answered with the 422 class of the framework, not 500;
here the token verifies, the body has age 2 out of range, and the response
status is 422. -/
theorem C5_counterexample_validation_not_500 :
    verify_token 1 0 (create_access_token 1 0 "alice") = Except.ok "alice" ∧
    validateBody (mkBodyAlias 2 "Male" 30 15 5 15 "Premium" "Monthly" 550 15) =
      Except.error (ValidationError.outOfRange "age") ∧
    (handlePredict 1 0 (fun _ => Except.ok 0)
      (some (create_access_token 1 0 "alice"))
      (mkBodyAlias 2 "Male" 30 15 5 15 "Premium" "Monthly" 550 15)).status = 422 ∧
    ¬ (handlePredict 1 0 (fun _ => Except.ok 0)
      (some (create_access_token 1 0 "alice"))
      (mkBodyAlias 2 "Male" 30 15 5 15 "Premium" "Monthly" 550 15)).status = 500 :=
  ⟨rfl, rfl, rfl, by decide⟩

/-- C5 amended: for every predict request carrying a token that verifies
and a body that fails validation, the response is the validation failure
carrying the error, with status 422. -/
theorem C5_amended_validation_failure_is_422
    (key now : Nat) (infer : CustomerData → Except String Int) (t : Token)
    (body : Body) (u : String) (e : ValidationError)
    (hv : verify_token key now t = Except.ok u)
    (he : validateBody body = Except.error e) :
    handlePredict key now infer (some t) body = Response.validationFailure e ∧
    (handlePredict key now infer (some t) body).status = 422 := by
  have h : handlePredict key now infer (some t) body =
      Response.validationFailure e := by
    simp [handlePredict, hv, he]
  refine ⟨h, ?_⟩
  rw [h]
  rfl

/-- Witness for the amended C5 at a concrete request. -/
theorem C5_amended_validation_failure_is_422_witness :
    handlePredict 1 0 (fun _ => Except.ok 0)
      (some (create_access_token 1 0 "alice"))
      (mkBodyAlias 2 "Male" 30 15 5 15 "Premium" "Monthly" 550 15) =
      Response.validationFailure (ValidationError.outOfRange "age") ∧
    (handlePredict 1 0 (fun _ => Except.ok 0)
      (some (create_access_token 1 0 "alice"))
      (mkBodyAlias 2 "Male" 30 15 5 15 "Premium" "Monthly" 550 15)).status = 422 :=
  C5_amended_validation_failure_is_422 1 0 (fun _ => Except.ok 0)
    (create_access_token 1 0 "alice")
    (mkBodyAlias 2 "Male" 30 15 5 15 "Premium" "Monthly" 550 15) "alice"
    (ValidationError.outOfRange "age") rfl rfl

/-- C6: an exception raised while building the row or invoking the model is
surfaced as a 500 server error whose detail is the underlying message; the
pipeline applies the model once and never swallows the failure. -/
theorem C6_inference_exception_surfaced_as_500
    (key now : Nat) (infer : CustomerData → Except String Int) (t : Token)
    (body : Body) (u : String) (record : CustomerData) (msg : String)
    (hv : verify_token key now t = Except.ok u)
    (hb : validateBody body = Except.ok record)
    (hi : infer record = Except.error msg) :
    handlePredict key now infer (some t) body = Response.serverError msg ∧
    (Response.serverError msg).status = 500 := by
  have h : handlePredict key now infer (some t) body =
      Response.serverError msg := by
    simp [handlePredict, predictCore, hv, hb, hi]
  exact ⟨h, rfl⟩

/-- Witness for C6 at a concrete failing model. -/
theorem C6_inference_exception_surfaced_as_500_witness :
    handlePredict 1 0 (fun _ => Except.error "boom")
      (some (create_access_token 1 0 "alice"))
      (mkBodyAlias 20 "Male" 30 15 5 15 "Premium" "Monthly" 550 15) =
      Response.serverError "boom" ∧
    (Response.serverError "boom").status = 500 :=
  C6_inference_exception_surfaced_as_500 1 0 (fun _ => Except.error "boom")
    (create_access_token 1 0 "alice")
    (mkBodyAlias 20 "Male" 30 15 5 15 "Premium" "Monthly" 550 15) "alice"
    sampleData "boom" rfl rfl rfl

/-- C7: registering a username absent from the store succeeds, a second
registration of the same username fails with AlreadyExists, and the store
after the first attempt holds exactly one record for that username, the
second attempt adding none. -/
theorem C7_double_registration
    (hash : String → String) (store : Store) (u : UserAuth) (p2 : String)
    (h : store.any (fun r => r.username = u.username) = false) :
    ∃ s2, register_new_user hash store u = Except.ok s2 ∧
      register_new_user hash s2 ⟨u.username, p2⟩ =
        Except.error RegisterError.alreadyExists ∧
      (s2.filter (fun r => r.username = u.username)).length = 1 := by
  refine ⟨store ++ [⟨u.username, hash u.password⟩], ?_, ?_, ?_⟩
  · simp only [register_new_user, h]
    rfl
  · simp [register_new_user, List.any_append, h]
  · rw [List.filter_append]
    have h0 : store.filter (fun r => decide (r.username = u.username)) = [] := by
      rw [List.filter_eq_nil_iff]
      intro a ha
      have h2 := List.any_eq_false.mp h a ha
      simpa using h2
    simp [h0]

/-- Witness for C7 on the empty store. -/
theorem C7_double_registration_witness :
    ∃ s2, register_new_user id [] ⟨"alice", "secret123"⟩ = Except.ok s2 ∧
      register_new_user id s2 ⟨"alice", "other"⟩ =
        Except.error RegisterError.alreadyExists ∧
      (s2.filter (fun r => r.username = "alice")).length = 1 :=
  C7_double_registration id [] ⟨"alice", "secret123"⟩ "other" rfl

/-- C8: a successful registration answers with a token response whose
access token carries the registered username as subject and is signed with
the service key, with token_type Bearer and expires_in the TTL in seconds;
the token verifies immediately, so no separate login is needed. -/
theorem C8_register_auto_issues_token
    (hash : String → String) (key now : Nat) (store : Store) (user : UserAuth)
    (s2 : Store) (resp : TokenResponse)
    (h : registerEndpoint hash key now store user = Except.ok (s2, resp)) :
    resp.access_token.subject = some user.username ∧
    resp.access_token.sig = key ∧
    resp.token_type = "Bearer" ∧
    resp.expires_in = ACCESS_TOKEN_EXPIRE_MINUTES * 60 ∧
    verify_token key now resp.access_token = Except.ok user.username := by
  unfold registerEndpoint at h
  cases hr : register_new_user hash store user with
  | error e =>
      rw [hr] at h
      exact absurd h (by simp)
  | ok s =>
      rw [hr] at h
      have h2 : resp = ⟨create_access_token key now user.username, "Bearer",
          ACCESS_TOKEN_EXPIRE_MINUTES * 60⟩ := by
        have := (Except.ok.injEq _ _).mp h
        exact (Prod.mk.injEq _ _ _ _).mp this |>.2.symm ▸ rfl
      subst h2
      have hexp : ¬ (now + ACCESS_TOKEN_EXPIRE_MINUTES * 60 < now) := by omega
      refine ⟨rfl, rfl, rfl, rfl, ?_⟩
      simp [verify_token, create_access_token, hexp]

/-- Witness for C8 on the empty store. -/
theorem C8_register_auto_issues_token_witness :
    (⟨some "alice", 1800, 1⟩ : Token).subject = some "alice" ∧
    (⟨some "alice", 1800, 1⟩ : Token).sig = 1 ∧
    "Bearer" = "Bearer" ∧
    (1800 : Nat) = ACCESS_TOKEN_EXPIRE_MINUTES * 60 ∧
    verify_token 1 0 (⟨some "alice", 1800, 1⟩ : Token) = Except.ok "alice" := by
  have h := C8_register_auto_issues_token id 1 0 [] ⟨"alice", "secret123"⟩
    [⟨"alice", "secret123"⟩]
    ⟨⟨some "alice", 1800, 1⟩, "Bearer", 1800⟩ rfl
  exact ⟨h.1, h.2.1, rfl, h.2.2.2.1.symm ▸ rfl, h.2.2.2.2⟩

/-- C9: an issued token verifies to its subject strictly until the TTL
elapses and fails with Expired afterwards; verification under a different
key always fails with Malformed; and a predict request with no token, or a
token signed under a different key, is answered 401 whatever the body and
the model, so neither validation nor inference runs. -/
theorem C9_token_lifecycle :
    (∀ key t0 sub now, now ≤ t0 + ACCESS_TOKEN_EXPIRE_MINUTES * 60 →
      verify_token key now (create_access_token key t0 sub) = Except.ok sub) ∧
    (∀ key t0 sub now, t0 + ACCESS_TOKEN_EXPIRE_MINUTES * 60 < now →
      verify_token key now (create_access_token key t0 sub) =
        Except.error TokenError.expired) ∧
    (∀ key key2 now t0 sub, key2 ≠ key →
      verify_token key2 now (create_access_token key t0 sub) =
        Except.error TokenError.malformed) ∧
    (∀ key now infer body,
      handlePredict key now infer none body = Response.authFailure ∧
      Response.authFailure.status = 401) ∧
    (∀ key key2 now t0 sub infer body, key2 ≠ key →
      (handlePredict key2 now infer
        (some (create_access_token key t0 sub)) body).status = 401) := by
  refine ⟨?_, ?_, ?_, ?_, ?_⟩
  · intro key t0 sub now h
    have h2 : ¬ (t0 + ACCESS_TOKEN_EXPIRE_MINUTES * 60 < now) := by omega
    simp [verify_token, create_access_token, h2]
  · intro key t0 sub now h
    simp [verify_token, create_access_token, h]
  · intro key key2 now t0 sub h
    simp [verify_token, create_access_token, Ne.symm h]
  · intro key now infer body
    exact ⟨rfl, rfl⟩
  · intro key key2 now t0 sub infer body h
    have hm : verify_token key2 now (create_access_token key t0 sub) =
        Except.error TokenError.malformed := by
      simp [verify_token, create_access_token, Ne.symm h]
    have hp : handlePredict key2 now infer
        (some (create_access_token key t0 sub)) body = Response.authFailure := by
      simp [handlePredict, hm]
    rw [hp]
    rfl

/-- Witness for C9 at concrete keys and times. -/
theorem C9_token_lifecycle_witness :
    verify_token 7 1800 (create_access_token 7 0 "alice") = Except.ok "alice" ∧
    verify_token 7 1801 (create_access_token 7 0 "alice") =
      Except.error TokenError.expired ∧
    verify_token 8 0 (create_access_token 7 0 "alice") =
      Except.error TokenError.malformed ∧
    handlePredict 7 0 (fun _ => Except.ok 0) none [] = Response.authFailure ∧
    (handlePredict 8 0 (fun _ => Except.ok 0)
      (some (create_access_token 7 0 "alice")) []).status = 401 :=
  ⟨C9_token_lifecycle.1 7 0 "alice" 1800 (by decide),
   C9_token_lifecycle.2.1 7 0 "alice" 1801 (by decide),
   C9_token_lifecycle.2.2.1 7 8 0 0 "alice" (by decide),
   (C9_token_lifecycle.2.2.2.1 7 0 (fun _ => Except.ok 0) []).1,
   C9_token_lifecycle.2.2.2.2 7 8 0 0 "alice" (fun _ => Except.ok 0) []
     (by decide)⟩

end ChurnPredictor
